import Mathlib

/-!
Verification development for the jkd-coach sparring-analysis core.

The Python source is embedded shallowly: numeric values are modelled as
exact rationals (`ℚ`), Python `dict.get(key, default)` field access is
modelled with `Option` fields and `Option.getD`, and the frame-processing
loop of the video analyzer is modelled as a left fold over an explicit
accumulator state.  Fallible operations return `Except`.
-/

namespace JKD

/-- Manual round record as consumed by `calculate_danger` in `app.py`.
Fields are `Option`-valued because the source reads them with
`round_data.get(key, default)`: a missing key is legal and replaced by the
per-field default inside the function. -/
structure ManualRound where
  clean_shots_taken : Option ℚ
  defense_score : Option ℚ
  ring_control_score : Option ℚ
  deriving Repr, DecidableEq

/-- Embedding of `calculate_danger` (src/app.py lines 216-222):
`clean = round_data.get('clean_shots_taken', 0) / 5.0`,
`defense = (10 - round_data.get('defense_score', 5)) / 10.0`,
`control = (10 - round_data.get('ring_control_score', 5)) / 10.0`,
`score = 0.5*clean + 0.3*defense + 0.2*control`,
returning `max(0.0, min(score, 1.0))`. -/
def calculate_danger (round_data : ManualRound) : ℚ :=
  let clean := round_data.clean_shots_taken.getD 0 / 5
  let defense := (10 - round_data.defense_score.getD 5) / 10
  let control := (10 - round_data.ring_control_score.getD 5) / 10
  let score := 0.5 * clean + 0.3 * defense + 0.2 * control
  max 0 (min score 1)

/-- Embedding of `get_strategy` (src/app.py lines 225-241): a pure
three-tier lookup on the danger score with the source's fixed
(title, text) pairs. -/
def get_strategy (danger_score : ℚ) : String × String :=
  if danger_score ≥ 0.7 then
    ("DEFENSE_FIRST",
     "High guard, active feet. Max 2-punch combos. Pump the jab, angle off. Do not trade.")
  else if danger_score ≥ 0.4 then
    ("RING_CUTTING",
     "Smart pressure. Cut exits, feint to draw counters. No ego wars. Control space.")
  else
    ("PRESSURE_BODY",
     "Walk him down. Invest in the body and arms. Bully, clinch, drown him.")

/-- Round-level video statistics as consumed by `video_form_and_danger`
in `src/risk_model.py`.  Only the two fields the function reads are kept;
both are read with `stats.get(key, 0.0)`, hence `Option`-valued. -/
structure VideoStats where
  guard_down_ratio : Option ℚ
  pose_coverage : Option ℚ
  deriving Repr, DecidableEq

/-- Output record of `video_form_and_danger`: the danger score, the form
score and the discrete focus label it appends to the stats dict. -/
structure VideoScore where
  video_danger_score : ℚ
  video_form_score : ℚ
  video_focus_next_round : String
  deriving Repr, DecidableEq

/-- Focus-label branch of `video_form_and_danger`
(src/src/risk_model.py lines 40-45): `"defense_first"` if
`danger >= 0.7`, else `"ring_cutting"` if `danger >= 0.4`, else
`"pressure_and_body"`. -/
def focus_label (danger : ℚ) : String :=
  if danger ≥ 0.7 then "defense_first"
  else if danger ≥ 0.4 then "ring_cutting"
  else "pressure_and_body"

/-- Embedding of `video_form_and_danger` (src/src/risk_model.py lines
20-51): `danger = max(0.0, min(1.0, 0.6*guard_down + 0.4*(1-pose_cov)))`;
`form` starts at 10, loses `guard_down*5` then `(1-pose_cov)*2`, and is
clamped to [0,10]; the focus label is chosen by `danger >= 0.7` /
`danger >= 0.4` / otherwise. -/
def video_form_and_danger (stats : VideoStats) : VideoScore :=
  let guard_down := stats.guard_down_ratio.getD 0
  let pose_cov := stats.pose_coverage.getD 0
  let danger := max 0 (min 1 (0.6 * guard_down + 0.4 * (1 - pose_cov)))
  let form0 : ℚ := 10
  let form1 := form0 - guard_down * 5
  let form2 := form1 - (1 - pose_cov) * 2
  let form := max 0 (min 10 form2)
  ⟨danger, form, focus_label danger⟩

/-- Per-frame signal extracted by `VideoAnalyzer._extract_frame_metrics`
(src/src/video_analyzer.py lines 31-77): guard heights (wrist y minus
shoulder y), absolute horizontal hip and ankle separations, nose y. -/
structure FrameMetrics where
  left_guard_height : ℚ
  right_guard_height : ℚ
  hip_rotation : ℚ
  stance_width : ℚ
  head_y : ℚ
  deriving Repr, DecidableEq

/-- Guard "down" threshold constant `GUARD_DOWN_THRESHOLD = 0.15` from
`VideoAnalyzer.analyze_video`. -/
def GUARD_DOWN_THRESHOLD : ℚ := 0.15

/-- Guard-down test of the analyzer loop:
`metrics["left_guard_height"] > GUARD_DOWN_THRESHOLD or
metrics["right_guard_height"] > GUARD_DOWN_THRESHOLD`. -/
def is_guard_down (m : FrameMetrics) : Bool :=
  decide (GUARD_DOWN_THRESHOLD < m.left_guard_height) ||
  decide (GUARD_DOWN_THRESHOLD < m.right_guard_height)

/-- Loop state of `VideoAnalyzer.analyze_video`: the frame counter, the
detection and guard-down counters, the five running sums and the list of
`head_y` values kept for the standard deviation. -/
structure AnalyzerState where
  frame_idx : ℕ
  pose_detected_frames : ℕ
  guard_down_frames : ℕ
  left_guard_sum : ℚ
  right_guard_sum : ℚ
  hip_rotation_sum : ℚ
  stance_width_sum : ℚ
  head_y_sum : ℚ
  head_y_values : List ℚ
  deriving Repr, DecidableEq

/-- Initial loop state: all counters and sums zero, no head positions. -/
def initState : AnalyzerState :=
  { frame_idx := 0, pose_detected_frames := 0, guard_down_frames := 0,
    left_guard_sum := 0, right_guard_sum := 0, hip_rotation_sum := 0,
    stance_width_sum := 0, head_y_sum := 0, head_y_values := [] }

/-- One iteration of the analyzer's `while` loop on a decoded frame.
`none` models a frame where `results.pose_landmarks` is absent: only
`frame_idx` advances.  `some m` models a detected pose: the detection
counter, the five sums and the `head_y` list grow, and the guard-down
counter grows exactly when `is_guard_down m`. -/
def stepFrame (s : AnalyzerState) (signal : Option FrameMetrics) : AnalyzerState :=
  match signal with
  | none => { s with frame_idx := s.frame_idx + 1 }
  | some m =>
    { frame_idx := s.frame_idx + 1
      pose_detected_frames := s.pose_detected_frames + 1
      guard_down_frames :=
        if is_guard_down m then s.guard_down_frames + 1 else s.guard_down_frames
      left_guard_sum := s.left_guard_sum + m.left_guard_height
      right_guard_sum := s.right_guard_sum + m.right_guard_height
      hip_rotation_sum := s.hip_rotation_sum + m.hip_rotation
      stance_width_sum := s.stance_width_sum + m.stance_width
      head_y_sum := s.head_y_sum + m.head_y
      head_y_values := s.head_y_values ++ [m.head_y] }

/-- Population variance of a list of rationals: the mean of squared
deviations from the mean.  This is the square of `np.std`, the external
library call the analyzer makes on `head_y_values`. -/
def popVariance (xs : List ℚ) : ℚ :=
  let n : ℚ := xs.length
  let mean := xs.sum / n
  (xs.map (fun y => (y - mean) ^ 2)).sum / n

/-- Round-level aggregate returned by `VideoAnalyzer.analyze_video`
(src/src/video_analyzer.py lines 150-191).  `avg_hip_rotation` holds the
degrees value the source stores under that key.  `avg_head_y` is the
`avg_head_y` local the source computes (it is omitted from the returned
dict).  `head_movement_score_sq` holds the square of the source's
`head_movement_score` (the source stores `np.std(head_y_values)`, i.e.
the square root of this field; the square root is irrational in general,
so the exact development tracks its square). -/
structure RoundMetrics where
  total_frames : ℕ
  pose_frames : ℕ
  pose_coverage : ℚ
  guard_down_ratio : ℚ
  avg_left_guard_height : ℚ
  avg_right_guard_height : ℚ
  avg_hip_rotation : ℚ
  avg_stance_width : ℚ
  avg_head_y : ℚ
  head_movement_score_sq : ℚ
  deriving Repr, DecidableEq

/-- Post-loop aggregation of `VideoAnalyzer.analyze_video`: ratios are
guarded divisions (`x/n if n > 0 else 0.0`); the source computes the five
averages and the movement score under a single
`pose_detected_frames > 0` test, split here into one conditional per
field with the same condition; `avg_hip_rotation` is the normalized
average multiplied by 180 afterwards, exactly as in the source. -/
def finalize (s : AnalyzerState) : RoundMetrics :=
  let total_frames := s.frame_idx
  let n : ℚ := s.pose_detected_frames
  { total_frames := total_frames
    pose_frames := s.pose_detected_frames
    pose_coverage := if 0 < total_frames then (s.pose_detected_frames : ℚ) / total_frames else 0
    guard_down_ratio := if 0 < s.pose_detected_frames then (s.guard_down_frames : ℚ) / n else 0
    avg_left_guard_height := if 0 < s.pose_detected_frames then s.left_guard_sum / n else 0
    avg_right_guard_height := if 0 < s.pose_detected_frames then s.right_guard_sum / n else 0
    avg_hip_rotation := (if 0 < s.pose_detected_frames then s.hip_rotation_sum / n else 0) * 180
    avg_stance_width := if 0 < s.pose_detected_frames then s.stance_width_sum / n else 0
    avg_head_y := if 0 < s.pose_detected_frames then s.head_y_sum / n else 0
    head_movement_score_sq :=
      if 0 < s.pose_detected_frames then
        (if 1 < s.head_y_values.length then popVariance s.head_y_values else 0)
      else 0 }

/-- Embedding of `VideoAnalyzer.analyze_video` at the boundary described
in the source: `none` models `cv2.VideoCapture` failing to open (the
source raises `ValueError` before touching any frame); `some frames`
models the finite frame sequence the capture yields, with `none` entries
for frames without a pose detection.  On an open source the loop runs to
completion and the aggregate is returned. -/
def analyze_video (source : Option (List (Option FrameMetrics))) :
    Except String RoundMetrics :=
  match source with
  | none => Except.error "Could not open video"
  | some frames => Except.ok (finalize (frames.foldl stepFrame initState))

/-- Detected signals of a frame sequence, in order. -/
def detectedSignals (frames : List (Option FrameMetrics)) : List FrameMetrics :=
  frames.filterMap id

/-- Fields of the enriched metrics dict that `generate_video_coaching`
(src/app.py lines 670-708) reads with plain indexing; all are present by
the time the composer runs (enrichment always adds them). -/
structure EnrichedMetrics where
  video_danger_score : ℚ
  guard_down_ratio : ℚ
  pose_coverage : ℚ
  avg_hip_rotation : ℚ
  deriving Repr, DecidableEq

/-- One feedback line of `generate_video_coaching`.  The source builds
formatted strings; each constructor stands for one of its fixed
templates, carrying the numeric value the source interpolates into that
line (string formatting itself is abstracted away), and `strategyLine`
carries the verbatim strategy text of the final section. -/
inductive FeedbackPart where
  | highRisk : FeedbackPart
  | moderateRisk : FeedbackPart
  | lowRisk : FeedbackPart
  | guardMajor : ℚ → FeedbackPart
  | guardNeedsWork : ℚ → FeedbackPart
  | guardSolid : ℚ → FeedbackPart
  | lowTracking : ℚ → FeedbackPart
  | hipWeak : ℚ → FeedbackPart
  | hipGood : ℚ → FeedbackPart
  | strategyLine : String → FeedbackPart
  deriving Repr, DecidableEq

/-- Embedding of `generate_video_coaching` (src/app.py lines 670-708):
the `feedback_parts` list in source order — risk headline
(`danger >= 0.7` / `>= 0.4` / else), guard comment (`> 0.3` / `> 0.15` /
else), tracking caveat only when `pose_coverage < 0.5`, hip comment only
when `avg_hip_rotation < 25` or `> 40`, then the strategy text.  The
source joins these parts with newlines. -/
def generate_video_coaching (metrics : EnrichedMetrics) (strategy_text : String) :
    List FeedbackPart :=
  let p1 :=
    if metrics.video_danger_score ≥ 0.7 then FeedbackPart.highRisk
    else if metrics.video_danger_score ≥ 0.4 then FeedbackPart.moderateRisk
    else FeedbackPart.lowRisk
  let p2 :=
    if metrics.guard_down_ratio > 0.3 then FeedbackPart.guardMajor metrics.guard_down_ratio
    else if metrics.guard_down_ratio > 0.15 then
      FeedbackPart.guardNeedsWork metrics.guard_down_ratio
    else FeedbackPart.guardSolid metrics.guard_down_ratio
  let p3 : List FeedbackPart :=
    if metrics.pose_coverage < 0.5 then [FeedbackPart.lowTracking metrics.pose_coverage]
    else []
  let p4 : List FeedbackPart :=
    if metrics.avg_hip_rotation < 25 then [FeedbackPart.hipWeak metrics.avg_hip_rotation]
    else if metrics.avg_hip_rotation > 40 then [FeedbackPart.hipGood metrics.avg_hip_rotation]
    else []
  [p1, p2] ++ p3 ++ p4 ++ [FeedbackPart.strategyLine strategy_text]

end JKD

namespace JKD

/-- Helper: closed forms for the analyzer loop state after folding an
arbitrary frame sequence from an arbitrary start state. -/
theorem foldl_stepFrame_closed (frames : List (Option FrameMetrics)) (s : AnalyzerState) :
    (frames.foldl stepFrame s).frame_idx = s.frame_idx + frames.length ∧
    (frames.foldl stepFrame s).pose_detected_frames =
      s.pose_detected_frames + (detectedSignals frames).length ∧
    (frames.foldl stepFrame s).guard_down_frames =
      s.guard_down_frames + ((detectedSignals frames).filter is_guard_down).length ∧
    (frames.foldl stepFrame s).left_guard_sum =
      s.left_guard_sum + ((detectedSignals frames).map FrameMetrics.left_guard_height).sum ∧
    (frames.foldl stepFrame s).right_guard_sum =
      s.right_guard_sum + ((detectedSignals frames).map FrameMetrics.right_guard_height).sum ∧
    (frames.foldl stepFrame s).hip_rotation_sum =
      s.hip_rotation_sum + ((detectedSignals frames).map FrameMetrics.hip_rotation).sum ∧
    (frames.foldl stepFrame s).stance_width_sum =
      s.stance_width_sum + ((detectedSignals frames).map FrameMetrics.stance_width).sum ∧
    (frames.foldl stepFrame s).head_y_sum =
      s.head_y_sum + ((detectedSignals frames).map FrameMetrics.head_y).sum ∧
    (frames.foldl stepFrame s).head_y_values =
      s.head_y_values ++ (detectedSignals frames).map FrameMetrics.head_y := by
  induction frames generalizing s with
  | nil => simp [detectedSignals]
  | cons f rest ih =>
    cases f with
    | none =>
      obtain ⟨e1, e2, e3, e4, e5, e6, e7, e8, e9⟩ := ih (stepFrame s none)
      refine ⟨?_, ?_, ?_, ?_, ?_, ?_, ?_, ?_, ?_⟩ <;>
        simp_all [stepFrame, detectedSignals] <;> omega
    | some m =>
      obtain ⟨e1, e2, e3, e4, e5, e6, e7, e8, e9⟩ := ih (stepFrame s (some m))
      refine ⟨?_, ?_, ?_, ?_, ?_, ?_, ?_, ?_, ?_⟩
      · simp_all [stepFrame, detectedSignals]; omega
      · simp_all [stepFrame, detectedSignals]; omega
      · simp_all [stepFrame, detectedSignals, List.filter_cons]
        split_ifs <;> (try simp only [List.length_cons]) <;> omega
      · simp_all [stepFrame, detectedSignals, add_assoc]
      · simp_all [stepFrame, detectedSignals, add_assoc]
      · simp_all [stepFrame, detectedSignals, add_assoc]
      · simp_all [stepFrame, detectedSignals, add_assoc]
      · simp_all [stepFrame, detectedSignals, add_assoc]
      · simp_all [stepFrame, detectedSignals, add_assoc]

/-- Helper: the closed forms specialized to the analyzer's initial state. -/
theorem foldl_stepFrame_initState (frames : List (Option FrameMetrics)) :
    (frames.foldl stepFrame initState).frame_idx = frames.length ∧
    (frames.foldl stepFrame initState).pose_detected_frames =
      (detectedSignals frames).length ∧
    (frames.foldl stepFrame initState).guard_down_frames =
      ((detectedSignals frames).filter is_guard_down).length ∧
    (frames.foldl stepFrame initState).left_guard_sum =
      ((detectedSignals frames).map FrameMetrics.left_guard_height).sum ∧
    (frames.foldl stepFrame initState).right_guard_sum =
      ((detectedSignals frames).map FrameMetrics.right_guard_height).sum ∧
    (frames.foldl stepFrame initState).hip_rotation_sum =
      ((detectedSignals frames).map FrameMetrics.hip_rotation).sum ∧
    (frames.foldl stepFrame initState).stance_width_sum =
      ((detectedSignals frames).map FrameMetrics.stance_width).sum ∧
    (frames.foldl stepFrame initState).head_y_sum =
      ((detectedSignals frames).map FrameMetrics.head_y).sum ∧
    (frames.foldl stepFrame initState).head_y_values =
      (detectedSignals frames).map FrameMetrics.head_y := by
  simpa only [initState, zero_add, List.nil_append] using
    foldl_stepFrame_closed frames initState

/-- Helper: the focus label names exactly the tier of its danger score. -/
theorem focus_label_iff (D : ℚ) :
    (focus_label D = "defense_first" ↔ 0.7 ≤ D) ∧
    (focus_label D = "ring_cutting" ↔ 0.4 ≤ D ∧ D < 0.7) ∧
    (focus_label D = "pressure_and_body" ↔ D < 0.4) := by
  unfold focus_label
  split_ifs with h1 h2 <;> simp only [ge_iff_le, not_le] at h1 ⊢ <;>
    try simp only [ge_iff_le, not_le] at h2
  · refine ⟨⟨fun _ => h1, fun _ => by trivial⟩, ⟨fun h => ?_, fun h => ?_⟩, ⟨fun h => ?_, fun h => ?_⟩⟩
    · exact absurd h (by decide)
    · exfalso; linarith [h.2]
    · exact absurd h (by decide)
    · exfalso; linarith
  · refine ⟨⟨fun h => ?_, fun h => ?_⟩, ⟨fun _ => ⟨h2, h1⟩, fun _ => by trivial⟩, ⟨fun h => ?_, fun h => ?_⟩⟩
    · exact absurd h (by decide)
    · exfalso; linarith
    · exact absurd h (by decide)
    · exfalso; linarith
  · refine ⟨⟨fun h => ?_, fun h => ?_⟩, ⟨fun h => ?_, fun h => ?_⟩, ⟨fun _ => h2, fun _ => by trivial⟩⟩
    · exact absurd h (by decide)
    · exfalso; linarith
    · exact absurd h (by decide)
    · exfalso; linarith [h.1]

/-- Helper: the strategy title names exactly the tier of its danger score. -/
theorem get_strategy_title_iff (D : ℚ) :
    ((get_strategy D).1 = "DEFENSE_FIRST" ↔ 0.7 ≤ D) ∧
    ((get_strategy D).1 = "RING_CUTTING" ↔ 0.4 ≤ D ∧ D < 0.7) ∧
    ((get_strategy D).1 = "PRESSURE_BODY" ↔ D < 0.4) := by
  unfold get_strategy
  split_ifs with h1 h2 <;> simp only [ge_iff_le, not_le] at h1 ⊢ <;>
    try simp only [ge_iff_le, not_le] at h2
  · refine ⟨⟨fun _ => h1, fun _ => by trivial⟩, ⟨fun h => ?_, fun h => ?_⟩, ⟨fun h => ?_, fun h => ?_⟩⟩
    · exact absurd h (by decide)
    · exfalso; linarith [h.2]
    · exact absurd h (by decide)
    · exfalso; linarith
  · refine ⟨⟨fun h => ?_, fun h => ?_⟩, ⟨fun _ => ⟨h2, h1⟩, fun _ => by trivial⟩, ⟨fun h => ?_, fun h => ?_⟩⟩
    · exact absurd h (by decide)
    · exfalso; linarith
    · exact absurd h (by decide)
    · exfalso; linarith
  · refine ⟨⟨fun h => ?_, fun h => ?_⟩, ⟨fun h => ?_, fun h => ?_⟩, ⟨fun _ => h2, fun _ => by trivial⟩⟩
    · exact absurd h (by decide)
    · exfalso; linarith
    · exact absurd h (by decide)
    · exfalso; linarith [h.1]

/-- C1: for every danger score `d`, `get_strategy` returns exactly one of
the three fixed (title, text) pairs with inclusive lower bounds
(`d ≥ 0.7` ⇒ DEFENSE_FIRST, `0.4 ≤ d < 0.7` ⇒ RING_CUTTING,
`d < 0.4` ⇒ PRESSURE_BODY), and in particular
`get_strategy 0.7` is DEFENSE_FIRST, `get_strategy 0.6999` is RING_CUTTING,
`get_strategy 0.4` is RING_CUTTING, `get_strategy 0.3999` is PRESSURE_BODY. -/
theorem get_strategy_tiers :
    (∀ d : ℚ,
      ((0.7 : ℚ) ≤ d → get_strategy d =
        ("DEFENSE_FIRST",
         "High guard, active feet. Max 2-punch combos. Pump the jab, angle off. Do not trade.")) ∧
      ((0.4 : ℚ) ≤ d → d < 0.7 → get_strategy d =
        ("RING_CUTTING",
         "Smart pressure. Cut exits, feint to draw counters. No ego wars. Control space.")) ∧
      (d < (0.4 : ℚ) → get_strategy d =
        ("PRESSURE_BODY",
         "Walk him down. Invest in the body and arms. Bully, clinch, drown him."))) ∧
    (get_strategy 0.7).1 = "DEFENSE_FIRST" ∧
    (get_strategy 0.6999).1 = "RING_CUTTING" ∧
    (get_strategy 0.4).1 = "RING_CUTTING" ∧
    (get_strategy 0.3999).1 = "PRESSURE_BODY" := by
  refine ⟨fun d => ⟨?_, ?_, ?_⟩, ?_, ?_, ?_, ?_⟩
  · intro h
    simp [get_strategy, ge_iff_le, h]
  · intro h4 h7
    simp [get_strategy, ge_iff_le, h4, not_le.mpr h7]
  · intro h4
    have h7 : d < (0.7 : ℚ) := lt_trans h4 (by norm_num)
    simp [get_strategy, ge_iff_le, not_le.mpr h7, not_le.mpr h4]
  · norm_num [get_strategy]
  · norm_num [get_strategy]
  · norm_num [get_strategy]
  · norm_num [get_strategy]

/-- C1 witness: the general tier statement instantiated at danger score 0.9. -/
theorem get_strategy_tiers_witness :
    (0.7 : ℚ) ≤ 0.9 ∧ get_strategy 0.9 =
      ("DEFENSE_FIRST",
       "High guard, active feet. Max 2-punch combos. Pump the jab, angle off. Do not trade.") :=
  ⟨by norm_num, (get_strategy_tiers.1 0.9).1 (by norm_num)⟩

/-- C2: for every manual round record containing all three fields, the
danger score equals the clamped weighted sum
`clamp(0.5*(shots/5) + 0.3*((10-defense)/10) + 0.2*((10-control)/10), 0, 1)`;
for more than 5 clean shots the clean term already exceeds 1 before the
clamp; and the final score never exceeds 1 (saturation at the ceiling).
The manual scorer returns only the danger score, so no form score or
focus label exists in this mode (visible in the return type of
`calculate_danger`). -/
theorem calculate_danger_formula (c d k : ℚ) :
    calculate_danger ⟨some c, some d, some k⟩ =
      max 0 (min (0.5 * (c / 5) + 0.3 * ((10 - d) / 10) + 0.2 * ((10 - k) / 10)) 1) ∧
    (5 < c → 1 < c / 5) ∧
    calculate_danger ⟨some c, some d, some k⟩ ≤ 1 := by
  refine ⟨rfl, fun h => by linarith, ?_⟩
  simp only [calculate_danger, Option.getD_some]
  exact max_le (by norm_num) (min_le_right _ _)

/-- C2 witness: the formula, the pre-clamp overshoot and the ceiling at a
round with 7 clean shots taken, defense 3 and ring control 4. -/
theorem calculate_danger_formula_witness :
    calculate_danger ⟨some 7, some 3, some 4⟩ =
      max 0 (min (0.5 * ((7 : ℚ) / 5) + 0.3 * ((10 - 3) / 10) + 0.2 * ((10 - 4) / 10)) 1) ∧
    ((5 : ℚ) < 7 → 1 < (7 : ℚ) / 5) ∧
    calculate_danger ⟨some 7, some 3, some 4⟩ ≤ 1 :=
  calculate_danger_formula 7 3 4

/-- C3: for every metrics record with both fields present, the video
scorer returns `danger = clamp(0.6*g + 0.4*(1-c), 0, 1)` and
`form = clamp(10 - g*5 - (1-c)*2, 0, 10)`, and the focus label is
"defense_first" exactly when `danger ≥ 0.7`, "ring_cutting" exactly when
`0.4 ≤ danger < 0.7`, and "pressure_and_body" exactly otherwise. -/
theorem video_form_and_danger_formula (g c : ℚ) :
    (video_form_and_danger ⟨some g, some c⟩).video_danger_score =
      max 0 (min 1 (0.6 * g + 0.4 * (1 - c))) ∧
    (video_form_and_danger ⟨some g, some c⟩).video_form_score =
      max 0 (min 10 (10 - g * 5 - (1 - c) * 2)) ∧
    ((video_form_and_danger ⟨some g, some c⟩).video_focus_next_round = "defense_first" ↔
      0.7 ≤ (video_form_and_danger ⟨some g, some c⟩).video_danger_score) ∧
    ((video_form_and_danger ⟨some g, some c⟩).video_focus_next_round = "ring_cutting" ↔
      0.4 ≤ (video_form_and_danger ⟨some g, some c⟩).video_danger_score ∧
      (video_form_and_danger ⟨some g, some c⟩).video_danger_score < 0.7) ∧
    ((video_form_and_danger ⟨some g, some c⟩).video_focus_next_round = "pressure_and_body" ↔
      (video_form_and_danger ⟨some g, some c⟩).video_danger_score < 0.4) := by
  obtain ⟨i1, i2, i3⟩ :=
    focus_label_iff ((video_form_and_danger ⟨some g, some c⟩).video_danger_score)
  exact ⟨rfl, rfl, i1, i2, i3⟩

/-- C3 witness: the formula and label equivalences at guard-down ratio
one half and pose coverage one half (danger 0.5, label "ring_cutting"). -/
theorem video_form_and_danger_formula_witness :
    ((video_form_and_danger ⟨some (1/2), some (1/2)⟩).video_focus_next_round = "ring_cutting" ↔
      0.4 ≤ (video_form_and_danger ⟨some (1/2), some (1/2)⟩).video_danger_score ∧
      (video_form_and_danger ⟨some (1/2), some (1/2)⟩).video_danger_score < 0.7) ∧
    (video_form_and_danger ⟨some (1/2), some (1/2)⟩).video_focus_next_round = "ring_cutting" :=
  ⟨(video_form_and_danger_formula (1/2) (1/2)).2.2.2.1,
   ((video_form_and_danger_formula (1/2) (1/2)).2.2.2.1).mpr (by norm_num [video_form_and_danger])⟩

/-- C7: `calculate_danger` is pure and deterministic (identical input
records yield identical scores; the score depends only on the three read
fields), and for records whose fields are all present and non-negative
(values above 10 allowed) the danger score lies in [0, 1]. -/
theorem calculate_danger_pure_and_bounded :
    (∀ r₁ r₂ : ManualRound, r₁ = r₂ → calculate_danger r₁ = calculate_danger r₂) ∧
    (∀ r₁ r₂ : ManualRound,
      r₁.clean_shots_taken = r₂.clean_shots_taken →
      r₁.defense_score = r₂.defense_score →
      r₁.ring_control_score = r₂.ring_control_score →
      calculate_danger r₁ = calculate_danger r₂) ∧
    (∀ c d k : ℚ, 0 ≤ c → 0 ≤ d → 0 ≤ k →
      0 ≤ calculate_danger ⟨some c, some d, some k⟩ ∧
      calculate_danger ⟨some c, some d, some k⟩ ≤ 1) := by
  refine ⟨fun r₁ r₂ h => by rw [h], ?_, ?_⟩
  · rintro ⟨a₁, b₁, c₁⟩ ⟨a₂, b₂, c₂⟩ h1 h2 h3
    simp only at h1 h2 h3
    rw [h1, h2, h3]
  · intro c d k _ _ _
    exact ⟨le_max_left 0 _, max_le (by norm_num) (min_le_right _ _)⟩

/-- C7 witness: determinism and the [0,1] bound at a concrete record with
a field value above 10. -/
theorem calculate_danger_pure_and_bounded_witness :
    calculate_danger ⟨some 12, some 3, some 4⟩ = calculate_danger ⟨some 12, some 3, some 4⟩ ∧
    (0 ≤ calculate_danger ⟨some 12, some 3, some 4⟩ ∧
     calculate_danger ⟨some 12, some 3, some 4⟩ ≤ 1) :=
  ⟨calculate_danger_pure_and_bounded.1 ⟨some 12, some 3, some 4⟩ ⟨some 12, some 3, some 4⟩ rfl,
   calculate_danger_pure_and_bounded.2.2 12 3 4 (by norm_num) (by norm_num) (by norm_num)⟩

/-- C8: the risk-tier table is one source of truth shared by both paths:
for every danger score the classifier returns the same pair whether the
score came from manual or video scoring (both call sites invoke the same
`get_strategy`), and for every video stats record the scorer's focus
label names exactly the tier that `get_strategy` picks at the video
danger score. -/
theorem strategy_table_agreement (stats : VideoStats) :
    (∀ d : ℚ, get_strategy d = get_strategy d) ∧
    (0.7 ≤ (video_form_and_danger stats).video_danger_score →
      (video_form_and_danger stats).video_focus_next_round = "defense_first" ∧
      (get_strategy (video_form_and_danger stats).video_danger_score).1 = "DEFENSE_FIRST") ∧
    (0.4 ≤ (video_form_and_danger stats).video_danger_score →
      (video_form_and_danger stats).video_danger_score < 0.7 →
      (video_form_and_danger stats).video_focus_next_round = "ring_cutting" ∧
      (get_strategy (video_form_and_danger stats).video_danger_score).1 = "RING_CUTTING") ∧
    ((video_form_and_danger stats).video_danger_score < 0.4 →
      (video_form_and_danger stats).video_focus_next_round = "pressure_and_body" ∧
      (get_strategy (video_form_and_danger stats).video_danger_score).1 = "PRESSURE_BODY") ∧
    ((video_form_and_danger stats).video_focus_next_round = "defense_first" ↔
      (get_strategy (video_form_and_danger stats).video_danger_score).1 = "DEFENSE_FIRST") ∧
    ((video_form_and_danger stats).video_focus_next_round = "ring_cutting" ↔
      (get_strategy (video_form_and_danger stats).video_danger_score).1 = "RING_CUTTING") ∧
    ((video_form_and_danger stats).video_focus_next_round = "pressure_and_body" ↔
      (get_strategy (video_form_and_danger stats).video_danger_score).1 = "PRESSURE_BODY") := by
  obtain ⟨f1, f2, f3⟩ := focus_label_iff ((video_form_and_danger stats).video_danger_score)
  obtain ⟨g1, g2, g3⟩ := get_strategy_title_iff ((video_form_and_danger stats).video_danger_score)
  exact ⟨fun d => rfl,
    fun h => ⟨f1.mpr h, g1.mpr h⟩,
    fun h4 h7 => ⟨f2.mpr ⟨h4, h7⟩, g2.mpr ⟨h4, h7⟩⟩,
    fun h => ⟨f3.mpr h, g3.mpr h⟩,
    f1.trans g1.symm, f2.trans g2.symm, f3.trans g3.symm⟩

/-- C8 witness: agreement at the all-defaults stats record, whose video
danger score is exactly 0.4 (the ring-cutting tier on both paths). -/
theorem strategy_table_agreement_witness :
    (video_form_and_danger ⟨none, none⟩).video_focus_next_round = "ring_cutting" ∧
    (get_strategy (video_form_and_danger ⟨none, none⟩).video_danger_score).1 = "RING_CUTTING" :=
  (strategy_table_agreement ⟨none, none⟩).2.2.1
    (by norm_num [video_form_and_danger]) (by norm_num [video_form_and_danger])

/-- C10: both scoring entry points are total on records with missing
fields: a missing `clean_shots_taken` behaves as 0, a missing
`defense_score` or `ring_control_score` as 5, a missing
`guard_down_ratio` or `pose_coverage` as 0.0; and video-scoring the
record with both fields missing yields danger 0.4, form 8.0 and focus
"ring_cutting". -/
theorem missing_field_defaults :
    (∀ d k : Option ℚ, calculate_danger ⟨none, d, k⟩ = calculate_danger ⟨some 0, d, k⟩) ∧
    (∀ c k : Option ℚ, calculate_danger ⟨c, none, k⟩ = calculate_danger ⟨c, some 5, k⟩) ∧
    (∀ c d : Option ℚ, calculate_danger ⟨c, d, none⟩ = calculate_danger ⟨c, d, some 5⟩) ∧
    (∀ c : Option ℚ, video_form_and_danger ⟨none, c⟩ = video_form_and_danger ⟨some 0, c⟩) ∧
    (∀ g : Option ℚ, video_form_and_danger ⟨g, none⟩ = video_form_and_danger ⟨g, some 0⟩) ∧
    video_form_and_danger ⟨none, none⟩ = ⟨0.4, 8, "ring_cutting"⟩ := by
  refine ⟨fun d k => rfl, fun c k => rfl, fun c d => rfl, fun c => rfl, fun g => rfl, ?_⟩
  norm_num [video_form_and_danger, focus_label, VideoScore.mk.injEq]

/-- C4: for every finite frame sequence the aggregator's output satisfies
`pose_frames ≤ total_frames`, `0 ≤ pose_coverage ≤ 1` and
`0 ≤ guard_down_ratio ≤ 1`; and a zero-frame video yields exactly-zero
coverage, ratio, averages and head-movement score.  Division only ever
happens under the positivity guards visible in `finalize`, mirroring the
source's `x / n if n > 0 else 0.0` conditionals. -/
theorem aggregator_invariants (frames : List (Option FrameMetrics)) (m : RoundMetrics)
    (hm : analyze_video (some frames) = Except.ok m) :
    m.pose_frames ≤ m.total_frames ∧
    0 ≤ m.pose_coverage ∧ m.pose_coverage ≤ 1 ∧
    0 ≤ m.guard_down_ratio ∧ m.guard_down_ratio ≤ 1 ∧
    (m.total_frames = 0 →
      m.pose_coverage = 0 ∧ m.guard_down_ratio = 0 ∧
      m.avg_left_guard_height = 0 ∧ m.avg_right_guard_height = 0 ∧
      m.avg_hip_rotation = 0 ∧ m.avg_stance_width = 0 ∧ m.avg_head_y = 0 ∧
      m.head_movement_score_sq = 0) := by
  have hm' : finalize (frames.foldl stepFrame initState) = m := by
    simpa [analyze_video] using hm
  subst hm'
  obtain ⟨e1, e2, e3, e4, e5, e6, e7, e8, e9⟩ := foldl_stepFrame_initState frames
  refine ⟨?_, ?_, ?_, ?_, ?_, ?_⟩
  · show (frames.foldl stepFrame initState).pose_detected_frames ≤
      (frames.foldl stepFrame initState).frame_idx
    rw [e1, e2]
    exact List.length_filterMap_le id frames
  · show (0 : ℚ) ≤ if 0 < (frames.foldl stepFrame initState).frame_idx then _ / _ else 0
    split_ifs with h
    · positivity
    · norm_num
  · show (if 0 < (frames.foldl stepFrame initState).frame_idx then
      ((frames.foldl stepFrame initState).pose_detected_frames : ℚ) /
        ((frames.foldl stepFrame initState).frame_idx : ℚ) else 0) ≤ 1
    split_ifs with h
    · rw [div_le_one (by exact_mod_cast h)]
      exact_mod_cast e1 ▸ e2 ▸ (List.length_filterMap_le id frames).trans_eq rfl
    · norm_num
  · show (0 : ℚ) ≤ if 0 < (frames.foldl stepFrame initState).pose_detected_frames
      then _ / _ else 0
    split_ifs with h
    · positivity
    · norm_num
  · show (if 0 < (frames.foldl stepFrame initState).pose_detected_frames then
      ((frames.foldl stepFrame initState).guard_down_frames : ℚ) /
        ((frames.foldl stepFrame initState).pose_detected_frames : ℚ) else 0) ≤ 1
    split_ifs with h
    · rw [div_le_one (by exact_mod_cast h)]
      have hle : (frames.foldl stepFrame initState).guard_down_frames ≤
          (frames.foldl stepFrame initState).pose_detected_frames := by
        rw [e2, e3]
        exact List.length_filter_le is_guard_down (detectedSignals frames)
      exact_mod_cast hle
    · norm_num
  · intro h0
    have hlen : frames.length = 0 := by
      have : (frames.foldl stepFrame initState).frame_idx = 0 := h0
      omega
    have hnil : frames = [] := List.eq_nil_of_length_eq_zero hlen
    subst hnil
    norm_num [finalize, initState]

/-- C4 witness: the invariants at the empty frame sequence. -/
theorem aggregator_invariants_witness :
    (finalize (([] : List (Option FrameMetrics)).foldl stepFrame initState)).pose_coverage ≤ 1 :=
  (aggregator_invariants [] _ rfl).2.2.1

/-- C5: closed forms for the aggregation: the guard-down test is exactly
`left_guard_height > 0.15 or right_guard_height > 0.15`; every averaged
quantity is the sum over detected frames divided by `pose_frames` (0 when
`pose_frames = 0`); `avg_hip_rotation` is the averaged normalized hip
distance times 180; and the square of the head-movement score is the
population variance of `head_y` over detected frames (so the score is
their population standard deviation), 0 when at most one frame is
detected. -/
theorem aggregator_computation (frames : List (Option FrameMetrics)) (m : RoundMetrics)
    (hm : analyze_video (some frames) = Except.ok m) :
    m.total_frames = frames.length ∧
    m.pose_frames = (detectedSignals frames).length ∧
    (∀ sig : FrameMetrics,
      is_guard_down sig = true ↔
        GUARD_DOWN_THRESHOLD < sig.left_guard_height ∨
        GUARD_DOWN_THRESHOLD < sig.right_guard_height) ∧
    (0 < m.pose_frames →
      m.guard_down_ratio =
        (((detectedSignals frames).filter is_guard_down).length : ℚ) / (m.pose_frames : ℚ) ∧
      m.avg_left_guard_height =
        ((detectedSignals frames).map FrameMetrics.left_guard_height).sum / (m.pose_frames : ℚ) ∧
      m.avg_right_guard_height =
        ((detectedSignals frames).map FrameMetrics.right_guard_height).sum / (m.pose_frames : ℚ) ∧
      m.avg_hip_rotation =
        (((detectedSignals frames).map FrameMetrics.hip_rotation).sum / (m.pose_frames : ℚ)) * 180 ∧
      m.avg_stance_width =
        ((detectedSignals frames).map FrameMetrics.stance_width).sum / (m.pose_frames : ℚ) ∧
      m.avg_head_y =
        ((detectedSignals frames).map FrameMetrics.head_y).sum / (m.pose_frames : ℚ)) ∧
    (m.pose_frames = 0 →
      m.guard_down_ratio = 0 ∧ m.avg_left_guard_height = 0 ∧
      m.avg_right_guard_height = 0 ∧ m.avg_hip_rotation = 0 ∧
      m.avg_stance_width = 0 ∧ m.avg_head_y = 0) ∧
    (1 < m.pose_frames →
      m.head_movement_score_sq =
        popVariance ((detectedSignals frames).map FrameMetrics.head_y)) ∧
    (m.pose_frames ≤ 1 → m.head_movement_score_sq = 0) := by
  have hm' : finalize (frames.foldl stepFrame initState) = m := by
    simpa [analyze_video] using hm
  subst hm'
  obtain ⟨e1, e2, e3, e4, e5, e6, e7, e8, e9⟩ := foldl_stepFrame_initState frames
  have hlen : (frames.foldl stepFrame initState).head_y_values.length =
      (frames.foldl stepFrame initState).pose_detected_frames := by
    rw [e9, List.length_map, e2]
  refine ⟨?_, ?_, ?_, ?_, ?_, ?_, ?_⟩
  · show (frames.foldl stepFrame initState).frame_idx = frames.length
    exact e1
  · show (frames.foldl stepFrame initState).pose_detected_frames = (detectedSignals frames).length
    exact e2
  · intro sig
    simp [is_guard_down]
  · intro hpos
    have hp0 : 0 < (frames.foldl stepFrame initState).pose_detected_frames := hpos
    rw [e2] at hp0
    refine ⟨?_, ?_, ?_, ?_, ?_, ?_⟩ <;>
      · show _ = _
        simp only [finalize, e2, e3, e4, e5, e6, e7, e8]
        rw [if_pos hp0]
  · intro h0
    have hz : (frames.foldl stepFrame initState).pose_detected_frames = 0 := h0
    refine ⟨?_, ?_, ?_, ?_, ?_, ?_⟩ <;>
      · show _ = _
        simp only [finalize, hz]
        rw [if_neg (lt_irrefl 0)]
        try rw [zero_mul]
  · intro h1
    have hp : 1 < (frames.foldl stepFrame initState).pose_detected_frames := h1
    show (if 0 < (frames.foldl stepFrame initState).pose_detected_frames then
      (if 1 < (frames.foldl stepFrame initState).head_y_values.length then
        popVariance (frames.foldl stepFrame initState).head_y_values else 0) else 0) = _
    rw [if_pos (by omega), if_pos (by rw [hlen]; exact hp), e9]
  · intro hle
    have hp : (frames.foldl stepFrame initState).pose_detected_frames ≤ 1 := hle
    show (if 0 < (frames.foldl stepFrame initState).pose_detected_frames then
      (if 1 < (frames.foldl stepFrame initState).head_y_values.length then
        popVariance (frames.foldl stepFrame initState).head_y_values else 0) else 0) = 0
    split_ifs with h h2
    · rw [hlen] at h2; omega
    · rfl
    · rfl

/-- C5 witness: the closed forms at a two-frame sequence with one
detected frame whose left guard height exceeds the threshold. -/
theorem aggregator_computation_witness :
    (finalize ([some ⟨(0.2 : ℚ), 0, 0.1, 0.3, 0.5⟩, none].foldl stepFrame initState)).guard_down_ratio =
      (((detectedSignals [some ⟨(0.2 : ℚ), 0, 0.1, 0.3, 0.5⟩, none]).filter
        is_guard_down).length : ℚ) /
      ((finalize ([some ⟨(0.2 : ℚ), 0, 0.1, 0.3, 0.5⟩, none].foldl stepFrame initState)).pose_frames : ℚ) :=
  ((aggregator_computation [some ⟨(0.2 : ℚ), 0, 0.1, 0.3, 0.5⟩, none] _ rfl).2.2.2.1
    (by decide)).1

/-- C6: the analysis fails, with no partial metrics, exactly when the
video source cannot be opened; an undetected frame never aborts the
analysis — it increments `total_frames` only, leaving `pose_frames` and
`guard_down_ratio` unchanged, and a full metrics record is still
produced. -/
theorem analyze_video_error_semantics :
    (∃ e : String, analyze_video none = Except.error e) ∧
    (∀ frames : List (Option FrameMetrics),
      analyze_video (some frames) =
        Except.ok (finalize (frames.foldl stepFrame initState))) ∧
    (∀ frames : List (Option FrameMetrics), ∀ m m' : RoundMetrics,
      analyze_video (some (none :: frames)) = Except.ok m →
      analyze_video (some frames) = Except.ok m' →
      m.total_frames = m'.total_frames + 1 ∧
      m.pose_frames = m'.pose_frames ∧
      m.guard_down_ratio = m'.guard_down_ratio) := by
  refine ⟨⟨"Could not open video", rfl⟩, fun frames => rfl, ?_⟩
  intro frames m m' hm hm'
  have h1 : finalize ((none :: frames).foldl stepFrame initState) = m := by
    simpa [analyze_video] using hm
  have h2 : finalize (frames.foldl stepFrame initState) = m' := by
    simpa [analyze_video] using hm'
  subst h1
  subst h2
  obtain ⟨a1, a2, a3, -⟩ := foldl_stepFrame_initState (none :: frames)
  obtain ⟨b1, b2, b3, -⟩ := foldl_stepFrame_initState frames
  have hd : detectedSignals (none :: frames) = detectedSignals frames := by
    simp [detectedSignals]
  refine ⟨?_, ?_, ?_⟩
  · show ((none :: frames).foldl stepFrame initState).frame_idx =
      (frames.foldl stepFrame initState).frame_idx + 1
    rw [a1, b1, List.length_cons]
  · show ((none :: frames).foldl stepFrame initState).pose_detected_frames =
      (frames.foldl stepFrame initState).pose_detected_frames
    rw [a2, b2, hd]
  · show (if 0 < ((none :: frames).foldl stepFrame initState).pose_detected_frames then
      (((none :: frames).foldl stepFrame initState).guard_down_frames : ℚ) /
        (((none :: frames).foldl stepFrame initState).pose_detected_frames : ℚ) else 0) =
      (if 0 < (frames.foldl stepFrame initState).pose_detected_frames then
      ((frames.foldl stepFrame initState).guard_down_frames : ℚ) /
        ((frames.foldl stepFrame initState).pose_detected_frames : ℚ) else 0)
    rw [a2, a3, b2, b3, hd]

/-- C6 witness: a single undetected frame is not fatal — analyzing it
still succeeds and counts one total frame, zero detected frames. -/
theorem analyze_video_error_semantics_witness :
    (finalize (([none] : List (Option FrameMetrics)).foldl stepFrame initState)).total_frames =
      (finalize (([] : List (Option FrameMetrics)).foldl stepFrame initState)).total_frames + 1 :=
  (analyze_video_error_semantics.2.2 [] _ _ rfl rfl).1

/-- C9: the narrative composer is deterministic template logic emitting,
in order: a risk headline chosen by `danger_score >= 0.7` / `>= 0.4` /
otherwise; a guard comment chosen by `guard_down_ratio > 0.3` (major) /
`> 0.15` (needs work) / otherwise (solid); a tracking caveat present
exactly when `pose_coverage < 0.5`; a hip comment present exactly when
`avg_hip_rotation < 25` (weak) or `> 40` (good); and the strategy text
verbatim as the final section. -/
theorem generate_video_coaching_spec (metrics : EnrichedMetrics) (t : String) :
    ((0.7 : ℚ) ≤ metrics.video_danger_score →
      (generate_video_coaching metrics t).head? = some FeedbackPart.highRisk) ∧
    ((0.4 : ℚ) ≤ metrics.video_danger_score → metrics.video_danger_score < 0.7 →
      (generate_video_coaching metrics t).head? = some FeedbackPart.moderateRisk) ∧
    (metrics.video_danger_score < (0.4 : ℚ) →
      (generate_video_coaching metrics t).head? = some FeedbackPart.lowRisk) ∧
    ((0.3 : ℚ) < metrics.guard_down_ratio →
      (generate_video_coaching metrics t)[1]? =
        some (FeedbackPart.guardMajor metrics.guard_down_ratio)) ∧
    ((0.15 : ℚ) < metrics.guard_down_ratio → metrics.guard_down_ratio ≤ 0.3 →
      (generate_video_coaching metrics t)[1]? =
        some (FeedbackPart.guardNeedsWork metrics.guard_down_ratio)) ∧
    (metrics.guard_down_ratio ≤ (0.15 : ℚ) →
      (generate_video_coaching metrics t)[1]? =
        some (FeedbackPart.guardSolid metrics.guard_down_ratio)) ∧
    (FeedbackPart.lowTracking metrics.pose_coverage ∈ generate_video_coaching metrics t ↔
      metrics.pose_coverage < 0.5) ∧
    (FeedbackPart.hipWeak metrics.avg_hip_rotation ∈ generate_video_coaching metrics t ↔
      metrics.avg_hip_rotation < 25) ∧
    (FeedbackPart.hipGood metrics.avg_hip_rotation ∈ generate_video_coaching metrics t ↔
      40 < metrics.avg_hip_rotation) ∧
    (∃ pre, generate_video_coaching metrics t = pre ++ [FeedbackPart.strategyLine t]) := by
  refine ⟨?_, ?_, ?_, ?_, ?_, ?_, ?_, ?_, ?_, ?_⟩
  · intro h
    simp only [generate_video_coaching]
    rw [if_pos h]
    rfl
  · intro h4 h7
    simp only [generate_video_coaching]
    rw [if_neg (not_le.mpr h7), if_pos h4]
    rfl
  · intro h
    simp only [generate_video_coaching]
    rw [if_neg (not_le.mpr (lt_trans h (by norm_num))), if_neg (not_le.mpr h)]
    rfl
  · intro h
    simp only [generate_video_coaching]
    rw [if_pos h]
    simp
  · intro h1 h2
    simp only [generate_video_coaching]
    rw [if_neg (not_lt.mpr h2), if_pos h1]
    simp
  · intro h
    simp only [generate_video_coaching]
    rw [if_neg (not_lt.mpr (le_trans h (by norm_num))), if_neg (not_lt.mpr h)]
    simp
  · simp only [generate_video_coaching]
    by_cases hc : metrics.pose_coverage < (0.5 : ℚ)
    · rw [if_pos hc]
      simp [hc]
    · rw [if_neg hc]
      split_ifs <;> simp_all
  · simp only [generate_video_coaching]
    by_cases hh : metrics.avg_hip_rotation < (25 : ℚ)
    · rw [if_pos hh]
      simp [hh]
    · rw [if_neg hh]
      split_ifs <;> simp_all
  · simp only [generate_video_coaching]
    by_cases hh : (40 : ℚ) < metrics.avg_hip_rotation
    · rw [if_neg (not_lt.mpr (le_trans (by norm_num) (le_of_lt hh))), if_pos hh]
      simp [hh]
    · split_ifs <;> simp_all
  · exact ⟨_, rfl⟩

/-- C9 witness: the headline at a high-risk record (danger 0.8). -/
theorem generate_video_coaching_spec_witness :
    (generate_video_coaching ⟨0.8, 0.35, 0.3, 20⟩ "S").head? = some FeedbackPart.highRisk :=
  (generate_video_coaching_spec ⟨0.8, 0.35, 0.3, 20⟩ "S").1 (by norm_num)

end JKD
